import Mathlib

/-!
Verification development for the browser client in `src/front/script.js`
(mistral-pdf-convert). The script wires a form-submit handler that builds a
multipart payload and posts it to an OCR endpoint, a checkbox change handler
that toggles a `downloadImages` flag, and a `renderMarkdown` function that
writes the converted markdown into the page and attaches a download button.
The definitions below are a shallow embedding of that script; theorems check
the specification document against it.
-/

namespace PdfConvert

/-- A file picked in the file input: its name, raw content and the declared
media type (`File.name` / `File.type` in the browser). -/
structure FileHandle where
  name : String
  content : String
  mimeType : Option String
deriving DecidableEq

/-- A value stored in a `FormData` entry: `FormData.append` keeps `Blob`/`File`
arguments as files and converts every other argument to a string. -/
inductive FormValue where
  | str (s : String)
  | file (f : FileHandle)
deriving DecidableEq

/-- A multipart form body: an ordered list of named entries. -/
abbrev FormData := List (String × FormValue)

/-- JavaScript string conversion of a boolean, as performed by
`formData.append('include_images', downloadImages)` on line 33. -/
def jsBoolString (b : Bool) : String := if b then "true" else "false"

/-- `formData.append('pdf_file', pdfFile)` on line 32: a `File` argument is
kept as a file; when no file is selected, `files[0]` is `undefined` and
JavaScript stringifies it to `"undefined"`. -/
def fileFormValue : Option FileHandle → FormValue
  | some f => FormValue.file f
  | none => FormValue.str "undefined"

/-- Lines 30-33 of the submit handler: the `FormData` built from the current
api key, the selected file (if any) and the `downloadImages` flag. -/
def buildFormData (apiKey : String) (pdfFile : Option FileHandle)
    (downloadImages : Bool) : FormData :=
  [("api_key", FormValue.str apiKey),
   ("pdf_file", fileFormValue pdfFile),
   ("include_images", FormValue.str (jsBoolString downloadImages))]

/-- `FormData.get`: the first entry stored under a name. -/
def fdGet : FormData → String → Option FormValue
  | [], _ => none
  | (k, v) :: rest, key => if k = key then some v else fdGet rest key

/-- The mutable state the script closes over: the `downloadImages` flag
declared on line 2, plus the DOM state the submit handler reads (line 28-29).
`checkboxChecked` is the checkbox element's own checked property; the script
never reads it. -/
structure PageState where
  downloadImages : Bool
  checkboxChecked : Bool
  fileInputFiles : List FileHandle
  apiKeyValue : String
deriving DecidableEq

/-- Observable actions of the submit handler. `setLoading` is never emitted by
the script (it maintains no loading indicator); the constructor exists so that
its absence can be stated. -/
inductive Ev where
  | preventDefault
  | setLoading (visible : Bool)
  | netRequest (fd : FormData)
deriving DecidableEq

/-- Lines 25-49: the form submit handler. It suppresses the default action,
reads `files[0]` and the api key, builds the form data and issues the fetch.
It consults no guard flag, performs no input validation, and touches no
loading indicator; it also leaves `PageState` unchanged (it assigns to none of
the captured variables), so consecutive submits run it on the same state. -/
def onSubmit (st : PageState) : List Ev :=
  [Ev.preventDefault,
   Ev.netRequest (buildFormData st.apiKeyValue st.fileInputFiles.head? st.downloadImages)]

/-- Lines 19-22: the checkbox change handler negates `downloadImages`. (The
browser flips the element's checked property on a user click by itself; the
handler only negates the captured flag, whatever fired the change event.) -/
def onCheckboxChange (st : PageState) : PageState :=
  { st with downloadImages := !st.downloadImages }

/-- A page entry of a backend response body (`pages[i]`); the script never
reads it. -/
structure PageEntry where
  markdown : Option String
deriving DecidableEq

/-- A parsed JSON response body. Optional fields model absent keys: reading an
absent key yields `undefined`, here `none`. -/
structure RespBody where
  success : Option Bool
  error : Option String
  fileName : Option String
  text : Option String
  concatenatedText : Option String
  pages : Option (List PageEntry)
deriving DecidableEq

/-- An HTTP response: its status code and its body, `none` when the body is
not valid JSON (then `response.json()` rejects). -/
structure HttpResponse where
  status : Nat
  jsonBody : Option RespBody
deriving DecidableEq

/-- Opaque markup produced by the external `marked` library from a markdown
source string. -/
structure Markup where
  source : String
deriving DecidableEq

/-- The external `marked.parse` capability: converts present markdown text to
markup and throws `marked(): input parameter is undefined or null` when given
an absent value (the exact failure the readme logs for this script). -/
def markedParse : Option String → Except String Markup
  | none => Except.error "input parameter is undefined or null"
  | some s => Except.ok { source := s }

/-- A child node of the `contents` container after rendering. -/
inductive Node where
  | markup (m : Markup)
  | downloadButton
deriving DecidableEq

/-- The `contents` container: its text color style and its child nodes. -/
structure Container where
  textColor : Option String
  children : List Node
deriving DecidableEq

/-- Result of running `renderMarkdown`: either it completed, or an exception
escaped, leaving the container in the given intermediate state. -/
inductive RenderOutcome where
  | ok (c : Container)
  | threw (c : Container) (msg : String)
deriving DecidableEq

/-- The container state a render outcome leaves behind. -/
def RenderOutcome.dom : RenderOutcome → Container
  | .ok c => c
  | .threw c _ => c

/-- Lines 52-69: `renderMarkdown`. Sets the container color to white, assigns
`container.innerHTML = marked.parse(text)` (replacing all prior children),
then appends the download button. When `marked.parse` throws, the exception
escapes after the color assignment and before `innerHTML` is touched. -/
def renderMarkdown (text : Option String) (container : Container) : RenderOutcome :=
  let colored : Container := { container with textColor := some "white" }
  match markedParse text with
  | Except.error msg => RenderOutcome.threw colored msg
  | Except.ok m =>
      let replaced : Container := { colored with children := [Node.markup m] }
      RenderOutcome.ok { replaced with children := replaced.children ++ [Node.downloadButton] }

/-- How one submission's fetch chain ends: either `renderMarkdown` completed,
or the `.catch` on line 44 fired and logged the error to the console. The
script has no error-display element and never constructs an HTTP-status
error; the status code is never read anywhere in the chain. -/
inductive SubmitOutcome where
  | rendered (c : Container)
  | consoleError (c : Container) (msg : String)
deriving DecidableEq

/-- Lines 39-46: the response continuation. `response.json()` is called
regardless of the status; on parse failure the `.catch` fires; otherwise
`renderMarkdown(result.text)` runs, and any exception it throws (notably
`marked.parse` on an absent `text`) also lands in the `.catch`, which only
logs to the console. -/
def onResponse (resp : HttpResponse) (container : Container) : SubmitOutcome :=
  match resp.jsonBody with
  | none => SubmitOutcome.consoleError container "json body could not be parsed"
  | some result =>
      match renderMarkdown result.text container with
      | RenderOutcome.ok c => SubmitOutcome.rendered c
      | RenderOutcome.threw c msg => SubmitOutcome.consoleError c msg

/-- A browser download triggered by clicking the anchor: the blob content,
its media type, and the `download` attribute naming the saved file. -/
structure DownloadEvent where
  content : String
  mimeType : String
  filename : String
deriving DecidableEq

/-- Observable actions of the download button's onclick handler
(lines 58-68). -/
inductive ExEv where
  | createObjectURL
  | appendAnchor
  | clickAnchor (d : DownloadEvent)
  | removeAnchor
  | revokeObjectURL
deriving DecidableEq

/-- Lines 58-68: the download button onclick. Creates the blob URL, appends
the anchor, clicks it (triggering a download of `text` as `text/markdown`
named `output.md`), removes the anchor and revokes the URL — straight-line
code with no try/finally. `clickThrows` models `a.click()` raising: then the
trace stops at the click and the exception escapes (second component true),
so neither `removeChild` nor `revokeObjectURL` runs. -/
def btnOnClick (text : String) (clickThrows : Bool) : List ExEv × Bool :=
  if clickThrows then
    ([ExEv.createObjectURL, ExEv.appendAnchor], true)
  else
    ([ExEv.createObjectURL, ExEv.appendAnchor,
      ExEv.clickAnchor { content := text, mimeType := "text/markdown", filename := "output.md" },
      ExEv.removeAnchor, ExEv.revokeObjectURL], false)

/-- The downloads actually triggered in a trace. -/
def downloadsOf (tr : List ExEv) : List DownloadEvent :=
  tr.filterMap fun e => match e with
    | ExEv.clickAnchor d => some d
    | _ => none

/-- The state the script starts from: `downloadImages` is initialized to
`false` on line 2; form contents and the checkbox's checked property are
whatever the DOM holds. -/
def initScriptState (files : List FileHandle) (key : String) (chk : Bool) : PageState :=
  { downloadImages := false, checkboxChecked := chk,
    fileInputFiles := files, apiKeyValue := key }

/-- `n` checkbox change events processed by the handler. -/
def applyChanges : Nat → PageState → PageState
  | 0, st => st
  | n + 1, st => onCheckboxChange (applyChanges n st)

/-- Recognizer for network-request events. -/
def isNetRequest : Ev → Bool
  | Ev.netRequest _ => true
  | _ => false

/-- The event trace of `n` consecutive submit actions. The handler mutates
none of the captured state, so each submit runs on the same `PageState`
whether or not an earlier request is still in flight. -/
def submitsTrace (st : PageState) : Nat → List Ev
  | 0 => []
  | n + 1 => submitsTrace st n ++ onSubmit st

/-- Modelled from the spec (section 4.1): validity of a submission input —
the api key is not empty and not whitespace-only (some character of it is
non-whitespace), and the file's declared media type, when present, is a PDF
type. The script itself contains no validation
code; this predicate only serves as the hypothesis of the spec's claim about
valid inputs. -/
def SpecValidInput (apiKey : String) (f : FileHandle) : Prop :=
  apiKey.data.any (fun c => !c.isWhitespace) = true ∧
  (f.mimeType = none ∨ f.mimeType = some "application/pdf")

/-- Parity step: toggling once more flips the parity bit. -/
theorem decide_succ_mod_two (n : Nat) :
    (decide ((n + 1) % 2 = 1)) = !(decide (n % 2 = 1)) := by
  rcases Nat.mod_two_eq_zero_or_one n with h | h
  · have h1 : (n + 1) % 2 = 1 := by omega
    simp [h, h1]
  · have h1 : (n + 1) % 2 = 0 := by omega
    simp [h, h1]

/-- After `n` change events from the initial script state, `downloadImages`
holds the parity of `n` and every other component is untouched. -/
theorem applyChanges_initScriptState (n : Nat) (files : List PdfConvert.FileHandle)
    (key : String) (chk : Bool) :
    applyChanges n (initScriptState files key chk)
      = { downloadImages := decide (n % 2 = 1), checkboxChecked := chk,
          fileInputFiles := files, apiKeyValue := key } := by
  induction n with
  | zero => rfl
  | succ n ih =>
      simp [applyChanges, ih, onCheckboxChange, decide_succ_mod_two]

end PdfConvert

open PdfConvert

/-- Claim C1: the spec says a payload lacking every renderable field selects a
no-content state and `marked.parse` is never invoked on an absent value. The
code instead passes `result.text` to `renderMarkdown` unconditionally, so on a
200 response whose body has no `text`, `concatenated_text` or `pages` content,
the absent value reaches `marked.parse`, which throws; the `.catch` logs it to
the console and no no-content state exists. This theorem evaluates the
response handler at such a payload: the outcome is the logged `marked` failure
with no content rendered, exactly the defect the readme documents. -/
theorem c1_absent_field_reaches_markdown_conversion :
    onResponse
      { status := 200,
        jsonBody := some
          { success := some true, error := none, fileName := some "doc.pdf",
            text := none, concatenatedText := none, pages := none } }
      { textColor := none, children := [] }
      = SubmitOutcome.consoleError { textColor := some "white", children := [] }
          "input parameter is undefined or null" := by
  rfl

/-- Claim C2: the spec says every non-2xx response fails with
`Http(status, message)` carrying the body's `error` field verbatim and no
result is rendered. The code never reads the status: a 500 response whose body
happens to carry a `text` field is rendered as a result, and a 422 response
with the standard failure body (`error` present, `text` absent) ends in the
catch-all console log of the `marked` failure — the backend's `error` string
is never surfaced and no `Http` error value is ever constructed. -/
theorem c2_status_never_checked :
    onResponse
      { status := 500,
        jsonBody := some
          { success := some false, error := some "internal server error",
            fileName := none, text := some "leftover", concatenatedText := none,
            pages := none } }
      { textColor := none, children := [] }
      = SubmitOutcome.rendered
          { textColor := some "white",
            children := [Node.markup { source := "leftover" }, Node.downloadButton] }
    ∧ onResponse
      { status := 422,
        jsonBody := some
          { success := some false, error := some "El campo api_key es requerido.",
            fileName := none, text := none, concatenatedText := none,
            pages := none } }
      { textColor := none, children := [] }
      = SubmitOutcome.consoleError { textColor := some "white", children := [] }
          "input parameter is undefined or null" := by
  exact ⟨rfl, rfl⟩

/-- Claim C3: the spec says an empty api key or an absent file fails
validation and no network request is issued. The submit handler contains no
validation at all: with an empty api key and no selected file it still issues
the fetch, sending an empty `api_key` entry and the string `"undefined"` as
`pdf_file`. -/
theorem c3_invalid_input_still_fetches :
    onSubmit { downloadImages := false, checkboxChecked := false,
               fileInputFiles := [], apiKeyValue := "" }
      = [Ev.preventDefault,
         Ev.netRequest
           [("api_key", FormValue.str ""),
            ("pdf_file", FormValue.str "undefined"),
            ("include_images", FormValue.str "false")]] := by
  rfl

/-- Claim C4 (counterexample): the claim says a second submit issued while the
first request is in flight is ignored, for one network call total. The handler
consults no in-flight flag and mutates no state, so two consecutive submit
events — the second arriving before any response — produce two network
requests. -/
theorem c4_counterexample_two_submits_two_requests :
    ((onSubmit { downloadImages := false, checkboxChecked := true,
                 fileInputFiles := [{ name := "sample.pdf", content := "pdfbytes",
                                      mimeType := some "application/pdf" }],
                 apiKeyValue := "k1" } ++
      onSubmit { downloadImages := false, checkboxChecked := true,
                 fileInputFiles := [{ name := "sample.pdf", content := "pdfbytes",
                                      mimeType := some "application/pdf" }],
                 apiKeyValue := "k1" }).filter isNetRequest).length = 2 := by
  rfl

/-- Claim C4 (amended): no submit action is ever ignored — the script has no
reentrancy guard, so a sequence of `n` submit actions issues exactly `n`
network requests, whatever requests are still in flight. -/
theorem c4_each_submit_issues_a_request (st : PageState) (n : Nat) :
    ((submitsTrace st n).filter isNetRequest).length = n := by
  induction n with
  | zero => rfl
  | succ n ih =>
      simp [submitsTrace, List.filter_append, onSubmit, isNetRequest] at ih ⊢
      omega

/-- Claim C5: the spec says the loading indicator is set before the network
call and cleared after it resolves. The script maintains no loading indicator
at all: every submit issues a network request, yet no loading transition
occurs anywhere in the handler's trace. -/
theorem c5_no_loading_transition_ever (st : PageState) :
    (∃ fd, Ev.netRequest fd ∈ onSubmit st) ∧ ∀ b, Ev.setLoading b ∉ onSubmit st := by
  constructor
  · exact ⟨buildFormData st.apiKeyValue st.fileInputFiles.head? st.downloadImages,
      by simp [onSubmit]⟩
  · intro b
    simp [onSubmit]

/-- Claim C6: for every valid input, the build step produces the payload with
the credential equal to the api key, the file entry carrying the original file
(hence its filename), and the image-inclusion flag as a boolean-like string.
The construction is total, so it never fails. -/
theorem c6_build_payload_fields (apiKey : String) (f : FileHandle) (di : Bool)
    (_hv : SpecValidInput apiKey f) :
    fdGet (buildFormData apiKey (some f) di) "api_key" = some (FormValue.str apiKey) ∧
    fdGet (buildFormData apiKey (some f) di) "pdf_file" = some (FormValue.file f) ∧
    fdGet (buildFormData apiKey (some f) di) "include_images"
      = some (FormValue.str (jsBoolString di)) ∧
    (jsBoolString di = "true" ∨ jsBoolString di = "false") := by
  refine ⟨?_, ?_, ?_, ?_⟩
  · simp [buildFormData, fdGet]
  · simp [buildFormData, fdGet, fileFormValue]
  · simp [buildFormData, fdGet, fileFormValue]
  · cases di <;> simp [jsBoolString]

/-- Claim C6 witness: the theorem applied at the concrete valid input of the
spec's Scenario A. -/
theorem c6_build_payload_fields_witness :
    fdGet (buildFormData "k1"
        (some { name := "sample.pdf", content := "pdfbytes",
                mimeType := some "application/pdf" }) true) "api_key"
      = some (FormValue.str "k1") ∧
    fdGet (buildFormData "k1"
        (some { name := "sample.pdf", content := "pdfbytes",
                mimeType := some "application/pdf" }) true) "pdf_file"
      = some (FormValue.file { name := "sample.pdf", content := "pdfbytes",
                               mimeType := some "application/pdf" }) := by
  have h := c6_build_payload_fields "k1"
    { name := "sample.pdf", content := "pdfbytes", mimeType := some "application/pdf" }
    true ⟨by decide, Or.inr rfl⟩
  exact ⟨h.1, h.2.1⟩

/-- Claim C7 (counterexample): the claim says the export action downloads
under the given filename. The onclick handler has no filename input: exporting
the Scenario A text produces a download hard-named `output.md`, not
`sample.md`. -/
theorem c7_counterexample_download_name_fixed :
    downloadsOf (btnOnClick "# Hi" false).1
      = [{ content := "# Hi", mimeType := "text/markdown", filename := "output.md" }] ∧
    ("output.md" : String) ≠ "sample.md" := by
  exact ⟨rfl, by decide⟩

/-- Claim C7 (amended): triggering the export action downloads exactly the
given text as a markdown file, but always under the fixed name `output.md`;
no filename argument exists. -/
theorem c7_export_content_exact_name_fixed (text : String) :
    downloadsOf (btnOnClick text false).1
      = [{ content := text, mimeType := "text/markdown", filename := "output.md" }] := by
  rfl

/-- Claim C8: rendering the same text twice into the same container leaves the
container exactly as rendering it once does — `innerHTML` assignment replaces
all prior children (including a previously appended button) before the button
is appended again, so nothing duplicates. This holds for absent text too,
where both runs throw at the same intermediate state. -/
theorem c8_render_idempotent (text : Option String) (c : Container) :
    renderMarkdown text (RenderOutcome.dom (renderMarkdown text c))
      = renderMarkdown text c := by
  cases text <;> rfl

/-- Claim C9 (counterexample): the claim says the object URL is revoked
unconditionally, even when triggering the download fails. The onclick body is
straight-line code with no try/finally: when `a.click()` throws, the trace
ends before `revokeObjectURL`, so the URL is never released. -/
theorem c9_counterexample_revoke_skipped_on_throw :
    ExEv.revokeObjectURL ∉ (btnOnClick "# Hi" true).1 := by
  decide

/-- Claim C9 (amended): the object URL is released exactly on the path where
triggering the download does not throw; when the click throws, the release is
skipped. -/
theorem c9_revoke_iff_click_succeeds (text : String) (clickThrows : Bool) :
    (ExEv.revokeObjectURL ∈ (btnOnClick text clickThrows).1) ↔ clickThrows = false := by
  cases clickThrows <;> simp [btnOnClick]

/-- Claim C10: the `include_images` value sent with the next submission is the
parity of the checkbox change events fired since page load — `downloadImages`
starts false and is negated per event — and the submit handler reads only this
flag, never the checkbox's checked property (the payload is identical for any
checked state `chk` or `chk2`). -/
theorem c10_include_images_is_toggle_parity (n : Nat) (files : List FileHandle)
    (key : String) (chk chk2 : Bool) :
    onSubmit (applyChanges n (initScriptState files key chk))
      = [Ev.preventDefault,
         Ev.netRequest (buildFormData key files.head? (decide (n % 2 = 1)))] ∧
    onSubmit (applyChanges n (initScriptState files key chk))
      = onSubmit (applyChanges n (initScriptState files key chk2)) := by
  constructor
  · simp [applyChanges_initScriptState, onSubmit]
  · simp [applyChanges_initScriptState, onSubmit]
